import Mathlib

set_option maxHeartbeats 1000000

/-!
Shallow embedding of `log10/feedback/feedback.py`: the `Feedback` HTTP client
(`__init__`, `_post_request`, `create`, `list`) and the two click commands
(`create_feedback`, `list_feedback`).

The HTTP transport (httpx) is modelled as an oracle `Transport` mapping the
outgoing request to either a transport-level failure message (httpx
`RequestError`, which carries no `response` attribute) or an `HttpResponse`
(status code plus a body which either decodes as JSON or does not).
Python-level exceptions are the inductive `PyErr`; observable side effects
(network requests, `logger.error` lines on stderr, `click.echo` /
`rich.Console.print` lines on stdout) are collected in a trace of `Event`s.
-/

namespace Log10

/-- JSON values, as decoded by `json.loads` / `httpx.Response.json()`.
Numbers are modelled as integers (no claim touches float payloads). -/
inductive Json where
  | null : Json
  | bool (b : Bool) : Json
  | num (n : Int) : Json
  | str (s : String) : Json
  | arr (xs : List Json) : Json
  | obj (kvs : List (String × Json)) : Json

mutual

/-- Structural equality of JSON values; this is also what Python `==`
computes on values decoded from JSON. -/
def Json.beq : Json → Json → Bool
  | Json.null, Json.null => true
  | Json.bool a, Json.bool b => a == b
  | Json.num a, Json.num b => a == b
  | Json.str a, Json.str b => a == b
  | Json.arr xs, Json.arr ys => Json.beqArr xs ys
  | Json.obj xs, Json.obj ys => Json.beqObj xs ys
  | _, _ => false

/-- Elementwise equality of JSON arrays. -/
def Json.beqArr : List Json → List Json → Bool
  | [], [] => true
  | x :: xs, y :: ys => Json.beq x y && Json.beqArr xs ys
  | _, _ => false

/-- Pairwise equality of JSON objects (order-sensitive, as in the decoded
association lists this embedding uses). -/
def Json.beqObj : List (String × Json) → List (String × Json) → Bool
  | [], [] => true
  | (k1, v1) :: xs, (k2, v2) :: ys => k1 == k2 && Json.beq v1 v2 && Json.beqObj xs ys
  | _, _ => false

end

/-- An httpx response: the status code and the decoded JSON body
(`none` when the body is not valid JSON, so that `.json()` raises). -/
structure HttpResponse where
  status : Nat
  body : Option Json

/-- Python exceptions that the embedded code can raise or propagate. -/
inductive PyErr where
  /-- httpx `RequestError` (connection/DNS/TLS failure); has no `response`
  attribute. -/
  | transportError (msg : String) : PyErr
  /-- httpx `HTTPStatusError` raised by `raise_for_status`; carries the
  response. -/
  | httpStatusError (resp : HttpResponse) : PyErr
  /-- `json.JSONDecodeError` from `json.loads` or `Response.json()`. -/
  | jsonDecodeError : PyErr
  /-- `TypeError` (e.g. `"error" in 5`, `[1]["error"]`, joining non-strings). -/
  | typeError : PyErr
  /-- `KeyError` from indexing a dict with a missing key. -/
  | keyError (k : String) : PyErr

/-- HTTP method of an outgoing request. -/
inductive Method where
  | post : Method
  | get : Method
deriving DecidableEq

/-- An outgoing HTTP request as issued through the httpx client. -/
structure HttpRequest where
  method : Method
  url : String
  headers : List (String × String)
  body : Option Json

/-- The network: answers each request with a transport failure message or a
response. One call of `post`/`get` consults the oracle once. -/
def Transport : Type := HttpRequest → Except String HttpResponse

/-- A row of the rich table built by the `list_feedback` command. -/
structure TableRow where
  id : String
  task_name : String
  feedback : String
  matched_completion_ids : String
deriving DecidableEq

/-- What `logger.error` is given: either an exception object or a value
extracted from a response body. -/
inductive LogMsg where
  | exc (e : PyErr) : LogMsg
  | val (v : Json) : LogMsg

/-- Observable effects, in order. `request` is a network call; `logError`
models `logger.error` (stderr); `echo`, `echoJson`, `printTable` and
`printLine` model `click.echo` / `rich.Console.print` (stdout). -/
inductive Event where
  | request (r : HttpRequest) : Event
  | logError (m : LogMsg) : Event
  | echo (s : String) : Event
  | echoJson (j : Json) : Event
  | printTable (rows : List TableRow) : Event
  | printLine (s : String) : Event

/-- The network requests occurring in a trace, in order. -/
def requestsOf (evs : List Event) : List HttpRequest :=
  evs.filterMap fun ev =>
    match ev with
    | Event.request r => some r
    | _ => none

/-- Whether `pat` occurs as a contiguous run inside `s` (Python substring
test `pat in s`; the empty pattern always occurs). -/
def strHasSub (pat s : List Char) : Bool :=
  match s with
  | [] => pat.isEmpty
  | _ :: rest => s.take pat.length == pat || strHasSub pat rest

/-- Python `key in x` for a value `x` decoded from JSON: key containment for
dicts, membership for lists, substring test for strings, `TypeError`
otherwise. -/
def pyIn (key : String) : Json → Except PyErr Bool
  | Json.obj kvs => Except.ok (kvs.lookup key).isSome
  | Json.arr xs => Except.ok (xs.any fun x => Json.beq x (Json.str key))
  | Json.str s => Except.ok (strHasSub key.data s.data)
  | _ => Except.error PyErr.typeError

/-- Python `x[key]` with a string key: dict lookup (`KeyError` when absent),
`TypeError` on any non-dict. -/
def pyIndex (j : Json) (key : String) : Except PyErr Json :=
  match j with
  | Json.obj kvs =>
    match kvs.lookup key with
    | some v => Except.ok v
    | none => Except.error (PyErr.keyError key)
  | _ => Except.error PyErr.typeError

/-- `Response.json()`: the decoded body, or `JSONDecodeError` when the body
is not valid JSON. -/
def HttpResponse.json (r : HttpResponse) : Except PyErr Json :=
  match r.body with
  | some j => Except.ok j
  | none => Except.error PyErr.jsonDecodeError

/-- `hasattr(e, "response")`: only `httpx.HTTPStatusError` carries the
response object. -/
def PyErr.response : PyErr → Option HttpResponse
  | PyErr.httpStatusError r => some r
  | _ => none

/-- The string interpolation of an exception (what `str(e)` yields inside an
f-string); the exact text is irrelevant to every claim. -/
def pyErrMsg : PyErr → String
  | PyErr.transportError m => m
  | PyErr.httpStatusError r => "HTTP status error " ++ toString r.status
  | PyErr.jsonDecodeError => "JSONDecodeError"
  | PyErr.typeError => "TypeError"
  | PyErr.keyError k => "KeyError " ++ k

/-- The shared `except Exception as e:` block of `Feedback._post_request` and
`Feedback.list`: `logger.error(e)`; then, when
`hasattr(e, "response") and hasattr(e.response, "json") and "error" in e.response.json()`,
`logger.error(e.response.json()["error"])`; then `raise`. Evaluating
`e.response.json()` (or the `in` test, or the indexing) can itself raise; in
that case the new exception escapes the block instead of the original one.
Returns the `logger.error` events and the exception that finally propagates. -/
def exceptBlockLog (e : PyErr) : List Event × PyErr :=
  let ev0 : List Event := [Event.logError (LogMsg.exc e)]
  match e.response with
  | none => (ev0, e)
  | some resp =>
    match resp.json with
    | Except.error e2 => (ev0, e2)
    | Except.ok j =>
      match pyIn "error" j with
      | Except.error e2 => (ev0, e2)
      | Except.ok false => (ev0, e)
      | Except.ok true =>
        match pyIndex j "error" with
        | Except.error e2 => (ev0, e2)
        | Except.ok v => (ev0 ++ [Event.logError (LogMsg.val v)], e)

/-- Modelled from the spec: `Log10Config` is defined in `log10/llm.py`, which
is not among the given sources. The spec describes it as the configuration
record of base URL, API token and organization id, loaded once per client
instance and immutable for the instance's lifetime; field names follow the
uses `self._log10_config.url`, `.token`, `.org_id` in `feedback.py`. -/
structure Log10Config where
  url : String
  token : String
  org_id : String
deriving DecidableEq

/-- The `Feedback` client: the held configuration and the headers assigned to
`self._http_client.headers` at construction. -/
structure Feedback where
  log10_config : Log10Config
  http_client_headers : List (String × String)
deriving DecidableEq

/-- `Feedback.__init__(log10_config=None)`: keep the given configuration (or
the default one that `Log10Config()` would load from the environment, passed
here as `default_config`) and replace the httpx client's headers with the
three fixed ones. -/
def Feedback.init (log10_config : Option Log10Config) (default_config : Log10Config) :
    Feedback :=
  let cfg := log10_config.getD default_config
  { log10_config := cfg,
    http_client_headers :=
      [("x-log10-token", cfg.token),
       ("x-log10-organization-id", cfg.org_id),
       ("Content-Type", "application/json")] }

/-- Class attribute `Feedback.feedback_create_url`. -/
def Feedback.feedback_create_url : String := "/api/v1/feedback"

/-- Python dict assignment `d[k] = v`: overwrite in place when the key is
present, append otherwise. -/
def dictSet (kvs : List (String × Json)) (k : String) (v : Json) :
    List (String × Json) :=
  if kvs.any fun p => p.1 = k then
    kvs.map fun p => if p.1 = k then (k, v) else p
  else kvs ++ [(k, v)]

/-- The POST request `self._http_client.post(self._log10_config.url + url, json=json_payload)`
issues: the client's fixed headers and the payload as JSON body. -/
def Feedback.postReq (fb : Feedback) (url : String) (payload : List (String × Json)) :
    HttpRequest :=
  { method := Method.post, url := fb.log10_config.url ++ url,
    headers := fb.http_client_headers, body := some (Json.obj payload) }

/-- `raise_for_status()` succeeds exactly on 2xx status codes. -/
def statusOk (status : Nat) : Prop := 200 ≤ status ∧ status < 300

instance (status : Nat) : Decidable (statusOk status) := by
  unfold statusOk; infer_instance

/-- `Feedback._post_request(url, json_payload)`: inject `organization_id`
into the payload, POST it, `raise_for_status`, return the response; on any
exception run the shared except block. Besides the Python result, the
embedding returns the event trace and the client state after the call (the
method assigns to no attribute of `self`, so that state is `fb` itself on
every path). -/
def Feedback.post_request (fb : Feedback) (t : Transport) (url : String)
    (json_payload : List (String × Json)) :
    Except PyErr HttpResponse × List Event × Feedback :=
  let payload := dictSet json_payload "organization_id" (Json.str fb.log10_config.org_id)
  let req := fb.postReq url payload
  match t req with
  | Except.error msg =>
    let out := exceptBlockLog (PyErr.transportError msg)
    (Except.error out.2, Event.request req :: out.1, fb)
  | Except.ok res =>
    if statusOk res.status then
      (Except.ok res, [Event.request req], fb)
    else
      let out := exceptBlockLog (PyErr.httpStatusError res)
      (Except.error out.2, Event.request req :: out.1, fb)

/-- `Feedback.create(task_id, values, completion_tags_selector, comment=None)`:
build the four-key payload (the `comment` key is always present; `None`
serializes as JSON `null`) and delegate to `_post_request`. -/
def Feedback.create (fb : Feedback) (t : Transport) (task_id : String) (values : Json)
    (completion_tags_selector : List String) (comment : Option String) :
    Except PyErr HttpResponse × List Event × Feedback :=
  let json_payload : List (String × Json) :=
    [("task_id", Json.str task_id),
     ("json_values", values),
     ("completion_tags_selector", Json.arr (completion_tags_selector.map Json.str)),
     ("comment", match comment with
       | none => Json.null
       | some c => Json.str c)]
  fb.post_request t Feedback.feedback_create_url json_payload

/-- The URL string `list` builds:
`f"\x7bbase_url\x7d\x7bapi_url\x7d?organization_id=\x7b...org_id\x7d&offset=\x7boffset\x7d&limit=\x7blimit\x7d"`. -/
def Feedback.listUrl (fb : Feedback) (offset limit : Int) : String :=
  fb.log10_config.url ++ "/api/v1/feedback" ++ "?organization_id="
    ++ fb.log10_config.org_id ++ "&offset=" ++ toString offset
    ++ "&limit=" ++ toString limit

/-- The GET request `self._http_client.get(url=url)` issues. -/
def Feedback.getReq (fb : Feedback) (url : String) : HttpRequest :=
  { method := Method.get, url := url, headers := fb.http_client_headers, body := none }

/-- `Feedback.list(offset=0, limit=25, task_id=None)`: GET the page URL,
`raise_for_status`, return the response; on any exception run the shared
except block. `task_id` is accepted but never used. As with `_post_request`,
the final component is the client state after the call. -/
def Feedback.list (fb : Feedback) (t : Transport) (offset limit : Int)
    (task_id : Option String) :
    Except PyErr HttpResponse × List Event × Feedback :=
  let url := fb.listUrl offset limit
  let req := fb.getReq url
  match t req with
  | Except.error msg =>
    let out := exceptBlockLog (PyErr.transportError msg)
    (Except.error out.2, Event.request req :: out.1, fb)
  | Except.ok res =>
    if statusOk res.status then
      (Except.ok res, [Event.request req], fb)
    else
      let out := exceptBlockLog (PyErr.httpStatusError res)
      (Except.error out.2, Event.request req :: out.1, fb)

/-- Minimal JSON string escaping used by `json.dumps` (quote and backslash;
`ensure_ascii=False` leaves other characters as they are). -/
def jsonEscape (s : String) : String :=
  String.join (s.data.map fun c =>
    if c = '"' then "\\\"" else if c = '\\' then "\\\\" else String.mk [c])

mutual

/-- `json.dumps(..., ensure_ascii=False)` on a decoded JSON value (default
separators: comma-space and colon-space). -/
def json_dumps : Json → String
  | Json.null => "null"
  | Json.bool true => "true"
  | Json.bool false => "false"
  | Json.num n => toString n
  | Json.str s => "\"" ++ jsonEscape s ++ "\""
  | Json.arr xs => "[" ++ json_dumps_arr xs ++ "]"
  | Json.obj kvs => "\x7b" ++ json_dumps_obj kvs ++ "\x7d"

/-- Comma-separated serialization of the elements of a JSON array. -/
def json_dumps_arr : List Json → String
  | [] => ""
  | [x] => json_dumps x
  | x :: y :: rest => json_dumps x ++ ", " ++ json_dumps_arr (y :: rest)

/-- Comma-separated serialization of the members of a JSON object. -/
def json_dumps_obj : List (String × Json) → String
  | [] => ""
  | [(k, v)] => "\"" ++ jsonEscape k ++ "\": " ++ json_dumps v
  | (k, v) :: p :: rest =>
    "\"" ++ jsonEscape k ++ "\": " ++ json_dumps v ++ ", " ++ json_dumps_obj (p :: rest)

end

/-- The string carried by a JSON string value, if any. -/
def asStr : Json → Option String
  | Json.str s => some s
  | _ => none

/-- Python `",".join(x)` on a value decoded from JSON: joins a list of
strings (`TypeError` as soon as an element is not a string), the characters
of a string, or the keys of a dict; `TypeError` on non-iterables. -/
def pyJoinComma : Json → Except PyErr String
  | Json.arr xs =>
    match xs.mapM asStr with
    | some ss => Except.ok (String.intercalate "," ss)
    | none => Except.error PyErr.typeError
  | Json.str s => Except.ok (String.intercalate "," (s.data.map fun c => String.mk [c]))
  | Json.obj kvs => Except.ok (String.intercalate "," (kvs.map fun p => p.1))
  | _ => Except.error PyErr.typeError

/-- One iteration of the `data_for_table` loop plus the later
`table.add_row` on that row: extract `id`, `task_name`, stringify
`json_values`, comma-join `matched_completion_ids`. rich's `add_row` only
accepts string cells, so a non-string `id`/`task_name` is an error (the
source would raise it slightly later, when the rows are rendered). -/
def rowOf (feedback : Json) : Except PyErr TableRow := do
  let idv ← pyIndex feedback "id"
  let namev ← pyIndex feedback "task_name"
  let valuesv ← pyIndex feedback "json_values"
  let matchedv ← pyIndex feedback "matched_completion_ids"
  let joined ← pyJoinComma matchedv
  match asStr idv, asStr namev with
  | some i, some n =>
    Except.ok
      { id := i, task_name := n, feedback := json_dumps valuesv,
        matched_completion_ids := joined }
  | _, _ => Except.error PyErr.typeError

/-- Python `for`-iteration over a value decoded from JSON: a list yields its
elements, a dict its keys, a string its characters; `TypeError` otherwise. -/
def pyIterate : Json → Except PyErr (List Json)
  | Json.arr xs => Except.ok xs
  | Json.obj kvs => Except.ok (kvs.map fun p => Json.str p.1)
  | Json.str s => Except.ok (s.data.map fun c => Json.str (String.mk [c]))
  | _ => Except.error PyErr.typeError

/-- The comprehension
`[feedback for feedback in feedback_data if feedback["task_id"] == task_id]`:
the indexing may raise on any element. -/
def filterByTaskId (tid : String) : List Json → Except PyErr (List Json)
  | [] => Except.ok []
  | f :: rest => do
    let v ← pyIndex f "task_id"
    let tail ← filterByTaskId tid rest
    if Json.beq v (Json.str tid) then pure (f :: tail) else pure tail

/-- Python truthiness of the click `--task_id` option value: `None` and the
empty string are falsy. -/
def pyTruthy : Option String → Bool
  | none => false
  | some s => s ≠ ""

/-- The `except Exception as e:` block of the `list_feedback` command:
`click.echo(f"Error fetching feedback \x7be\x7d")`, then the same
response-probing as `exceptBlockLog` but echoing to stdout, then `return`.
Returns the stdout events and, when the probing itself raised, the escaping
exception (`none` = the command returns normally). -/
def exceptBlockEcho (e : PyErr) : List Event × Option PyErr :=
  let ev0 : List Event := [Event.echo ("Error fetching feedback " ++ pyErrMsg e)]
  match e.response with
  | none => (ev0, none)
  | some resp =>
    match resp.json with
    | Except.error e2 => (ev0, some e2)
    | Except.ok j =>
      match pyIn "error" j with
      | Except.error e2 => (ev0, some e2)
      | Except.ok false => (ev0, none)
      | Except.ok true =>
        match pyIndex j "error" with
        | Except.error e2 => (ev0, some e2)
        | Except.ok v => (ev0 ++ [Event.echoJson v], none)

/-- Default of the click `--comment` option of `create_feedback`
(`@click.option("--comment", help="Comment", default="")`). -/
def create_feedback_comment_default : String := ""

/-- The `create_feedback` command body: echo, split the selector on commas,
`json.loads(values)` (here the oracle `loads`, `none` meaning the string is
not valid JSON so `json.loads` raises), call `Feedback().create(...)`, echo
`feedback.json()`. No exception is caught: the first component is the
exception that propagates out of the command, if any. -/
def create_feedback (t : Transport) (default_config : Log10Config)
    (loads : String → Option Json) (task_id : String) (values : String)
    (completion_tags_selector : String) (comment : String) :
    Except PyErr Unit × List Event :=
  let ev0 : List Event := [Event.echo "Creating feedback"]
  let tags := completion_tags_selector.splitOn ","
  match loads values with
  | none => (Except.error PyErr.jsonDecodeError, ev0)
  | some v =>
    match (Feedback.init none default_config).create t task_id v tags (some comment) with
    | (Except.error e, evs, _) => (Except.error e, ev0 ++ evs)
    | (Except.ok res, evs, _) =>
      match res.json with
      | Except.error e => (Except.error e, ev0 ++ evs)
      | Except.ok j => (Except.ok (), ev0 ++ evs ++ [Event.echoJson j])

/-- `create_feedback` as click invokes it: a missing `--comment` flag becomes
the declared default `""`. -/
def create_feedback_cli (t : Transport) (default_config : Log10Config)
    (loads : String → Option Json) (task_id : String) (values : String)
    (completion_tags_selector : String) (comment : Option String) :
    Except PyErr Unit × List Event :=
  create_feedback t default_config loads task_id values completion_tags_selector
    (comment.getD create_feedback_comment_default)

/-- The `list_feedback` command body: `Feedback().list(offset=offset,
limit=limit)` inside `try` (note: `task_id` is not forwarded); on exception
run `exceptBlockEcho` and return; otherwise take `res.json()["data"]`,
filter it client-side when `task_id` is truthy, build the table rows, print
the table and the `Total feedback:` line. The first component is the
exception escaping the command, if any (exceptions after the `try` block are
not caught). -/
def list_feedback (t : Transport) (default_config : Log10Config)
    (offset limit : Int) (task_id : Option String) :
    Option PyErr × List Event :=
  match (Feedback.init none default_config).list t offset limit none with
  | (Except.error e, evs, _) =>
    let out := exceptBlockEcho e
    (out.2, evs ++ out.1)
  | (Except.ok res, evs, _) =>
    match res.json with
    | Except.error e => (some e, evs)
    | Except.ok j =>
      match pyIndex j "data" with
      | Except.error e => (some e, evs)
      | Except.ok d =>
        match pyIterate d with
        | Except.error e => (some e, evs)
        | Except.ok items =>
          match
            if pyTruthy task_id then filterByTaskId (task_id.getD "") items
            else Except.ok items with
          | Except.error e => (some e, evs)
          | Except.ok feedback_data =>
            match feedback_data.mapM rowOf with
            | Except.error e => (some e, evs)
            | Except.ok rows =>
              (none,
               evs ++ [Event.printTable rows,
                       Event.printLine ("Total feedback: " ++ toString feedback_data.length)])

/-- A well-formed feedback record as the server returns it inside `data`,
with the fields the CLI table consumes. -/
structure FeedbackRecord where
  id : String
  task_id : String
  task_name : String
  json_values : Json
  matched_completion_ids : List String

/-- The JSON object for a `FeedbackRecord`. -/
def FeedbackRecord.toJson (r : FeedbackRecord) : Json :=
  Json.obj
    [("id", Json.str r.id),
     ("task_id", Json.str r.task_id),
     ("task_name", Json.str r.task_name),
     ("json_values", r.json_values),
     ("matched_completion_ids", Json.arr (r.matched_completion_ids.map Json.str))]

/-- The table row the CLI renders for a well-formed record. -/
def FeedbackRecord.toRow (r : FeedbackRecord) : TableRow :=
  { id := r.id, task_name := r.task_name,
    feedback := json_dumps r.json_values,
    matched_completion_ids := String.intercalate "," r.matched_completion_ids }

/-- `pat` occurs as a contiguous substring of `s`. -/
def strContains (s pat : String) : Prop :=
  ∃ l r, s.data = l ++ pat.data ++ r

/-- A concrete configuration for witnesses and counterexamples. -/
def cfg0 : Log10Config :=
  { url := "https://log10.test", token := "tok0", org_id := "org0" }

/-- A transport answering every request with the given status and JSON body. -/
def tJson (st : Nat) (j : Json) : Transport :=
  fun _ => Except.ok { status := st, body := some j }

/-- A transport answering every request with the given status and a body that
is not valid JSON. -/
def tRaw (st : Nat) : Transport :=
  fun _ => Except.ok { status := st, body := none }

/-- A transport failing every request at the transport level. -/
def tDown (msg : String) : Transport :=
  fun _ => Except.error msg

/-- The JSON body `create` sends: the four payload keys in order, plus the
`organization_id` that `_post_request` appends. -/
def createPayload (cfg : Log10Config) (task_id : String) (values : Json)
    (tags : List String) (comment : Option String) : List (String × Json) :=
  [("task_id", Json.str task_id),
   ("json_values", values),
   ("completion_tags_selector", Json.arr (tags.map Json.str)),
   ("comment", comment.elim Json.null Json.str),
   ("organization_id", Json.str cfg.org_id)]

/-- Observer: the `comment` field of the JSON body of the single request of a
trace (when the trace has exactly one request with an object body). -/
def commentFieldOf (evs : List Event) : Option Json :=
  match requestsOf evs with
  | [r] =>
    match r.body with
    | some (Json.obj kvs) => kvs.lookup "comment"
    | _ => none
  | _ => none

/-- A concrete record with task id `"a"`, for witnesses. -/
def recA : FeedbackRecord :=
  { id := "f1", task_id := "a", task_name := "Task A",
    json_values := Json.obj [("score", Json.num 5)],
    matched_completion_ids := ["c1", "c2"] }

/-- A concrete record with task id `"b"`, for witnesses. -/
def recB : FeedbackRecord :=
  { id := "f2", task_id := "b", task_name := "Task B",
    json_values := Json.obj [("score", Json.num 3)],
    matched_completion_ids := ["c3"] }

/-- The list envelope holding `recA` and `recB`, for witnesses. -/
def envAB : Json :=
  Json.obj [("data", Json.arr [recA.toJson, recB.toJson])]

/-! Helper lemmas about the event traces. -/

theorem requestsOf_nil : requestsOf [] = [] := rfl

theorem requestsOf_cons_request (r : HttpRequest) (evs : List Event) :
    requestsOf (Event.request r :: evs) = r :: requestsOf evs := rfl

theorem requestsOf_cons_logError (m : LogMsg) (evs : List Event) :
    requestsOf (Event.logError m :: evs) = requestsOf evs := rfl

theorem requestsOf_cons_echo (s : String) (evs : List Event) :
    requestsOf (Event.echo s :: evs) = requestsOf evs := rfl

theorem requestsOf_cons_echoJson (j : Json) (evs : List Event) :
    requestsOf (Event.echoJson j :: evs) = requestsOf evs := rfl

theorem requestsOf_append (a b : List Event) :
    requestsOf (a ++ b) = requestsOf a ++ requestsOf b := by
  simp [requestsOf]

/-- The shared except block performs no network request of its own. -/
theorem requestsOf_exceptBlockLog (e : PyErr) :
    requestsOf (exceptBlockLog e).1 = [] := by
  dsimp only [exceptBlockLog]
  repeat' split
  all_goals rfl

/-- The shared except block logs the caught exception first, optionally
followed by the server-supplied error value; nothing else. -/
theorem exceptBlockLog_shape (e : PyErr) :
    (exceptBlockLog e).1 = [Event.logError (LogMsg.exc e)] ∨
    ∃ v, (exceptBlockLog e).1 =
      [Event.logError (LogMsg.exc e), Event.logError (LogMsg.val v)] := by
  dsimp only [exceptBlockLog]
  repeat' split
  all_goals first
    | exact Or.inl rfl
    | exact Or.inr ⟨_, rfl⟩

/-- The shared except block always starts by logging the caught exception. -/
theorem exceptBlockLog_head (e : PyErr) :
    ∃ tl, (exceptBlockLog e).1 = Event.logError (LogMsg.exc e) :: tl := by
  rcases exceptBlockLog_shape e with h | ⟨v, h⟩
  · exact ⟨[], h⟩
  · exact ⟨[Event.logError (LogMsg.val v)], h⟩

/-- All events of the shared except block are `logger.error` lines. -/
theorem exceptBlockLog_all_log (e : PyErr) :
    ∀ ev ∈ (exceptBlockLog e).1, ∃ m, ev = Event.logError m := by
  intro ev hev
  rcases exceptBlockLog_shape e with h | ⟨v, h⟩ <;> rw [h] at hev <;>
    simp only [List.mem_cons, List.not_mem_nil, or_false] at hev
  · exact ⟨_, hev⟩
  · rcases hev with hev | hev
    · exact ⟨_, hev⟩
    · exact ⟨_, hev⟩

/-! Helper lemmas about `_post_request`, `create` and `list`. -/

/-- `_post_request` issues exactly the one POST it builds. -/
theorem post_request_requests (fb : Feedback) (t : Transport) (url : String)
    (payload : List (String × Json)) :
    requestsOf (fb.post_request t url payload).2.1 =
      [fb.postReq url (dictSet payload "organization_id" (Json.str fb.log10_config.org_id))] := by
  dsimp only [Feedback.post_request]
  rcases ht : t (fb.postReq url
      (dictSet payload "organization_id" (Json.str fb.log10_config.org_id))) with msg | res
  · dsimp only
    rw [requestsOf_cons_request, requestsOf_exceptBlockLog]
  · dsimp only
    by_cases hs : statusOk res.status
    · rw [if_pos hs]
      rfl
    · rw [if_neg hs]
      rw [requestsOf_cons_request, requestsOf_exceptBlockLog]

/-- `_post_request` mutates no client state. -/
theorem post_request_state (fb : Feedback) (t : Transport) (url : String)
    (payload : List (String × Json)) :
    (fb.post_request t url payload).2.2 = fb := by
  dsimp only [Feedback.post_request]
  rcases ht : t (fb.postReq url
      (dictSet payload "organization_id" (Json.str fb.log10_config.org_id))) with msg | res
  · rfl
  · dsimp only
    by_cases hs : statusOk res.status
    · rw [if_pos hs]
    · rw [if_neg hs]

/-- `create` is `_post_request` on the four-key payload. -/
theorem create_unfold (fb : Feedback) (t : Transport) (task_id : String) (values : Json)
    (tags : List String) (comment : Option String) :
    fb.create t task_id values tags comment =
      fb.post_request t Feedback.feedback_create_url
        [("task_id", Json.str task_id),
         ("json_values", values),
         ("completion_tags_selector", Json.arr (tags.map Json.str)),
         ("comment", comment.elim Json.null Json.str)] := by
  cases comment <;> rfl

/-- Injecting `organization_id` into the four-key payload appends it: the
key is not already present. -/
theorem dictSet_create (cfg : Log10Config) (task_id : String) (values : Json)
    (tags : List String) (comment : Option String) :
    dictSet
      [("task_id", Json.str task_id),
       ("json_values", values),
       ("completion_tags_selector", Json.arr (tags.map Json.str)),
       ("comment", comment.elim Json.null Json.str)]
      "organization_id" (Json.str cfg.org_id) =
    createPayload cfg task_id values tags comment := rfl

/-- `create` issues exactly one POST, carrying `createPayload`. -/
theorem create_requests (cfg : Log10Config) (t : Transport) (task_id : String)
    (values : Json) (tags : List String) (comment : Option String) :
    requestsOf ((Feedback.init none cfg).create t task_id values tags comment).2.1 =
      [(Feedback.init none cfg).postReq Feedback.feedback_create_url
        (createPayload cfg task_id values tags comment)] := by
  rw [create_unfold, post_request_requests]
  rfl

/-- `create` mutates no client state. -/
theorem create_state (fb : Feedback) (t : Transport) (task_id : String)
    (values : Json) (tags : List String) (comment : Option String) :
    (fb.create t task_id values tags comment).2.2 = fb := by
  rw [create_unfold, post_request_state]

/-- `list` issues exactly the one GET it builds. -/
theorem list_requests (fb : Feedback) (t : Transport) (offset limit : Int)
    (tid : Option String) :
    requestsOf (fb.list t offset limit tid).2.1 =
      [fb.getReq (fb.listUrl offset limit)] := by
  dsimp only [Feedback.list]
  rcases ht : t (fb.getReq (fb.listUrl offset limit)) with msg | res
  · dsimp only
    rw [requestsOf_cons_request, requestsOf_exceptBlockLog]
  · dsimp only
    by_cases hs : statusOk res.status
    · rw [if_pos hs]
      rfl
    · rw [if_neg hs]
      rw [requestsOf_cons_request, requestsOf_exceptBlockLog]

/-- `list` mutates no client state. -/
theorem list_state (fb : Feedback) (t : Transport) (offset limit : Int)
    (tid : Option String) :
    (fb.list t offset limit tid).2.2 = fb := by
  dsimp only [Feedback.list]
  rcases ht : t (fb.getReq (fb.listUrl offset limit)) with msg | res
  · rfl
  · dsimp only
    by_cases hs : statusOk res.status
    · rw [if_pos hs]
    · rw [if_neg hs]

/-- On a 2xx response, `list` returns it as is. -/
theorem list_ok (fb : Feedback) (t : Transport) (offset limit : Int) (tid : Option String)
    (res : HttpResponse) (ht : t (fb.getReq (fb.listUrl offset limit)) = Except.ok res)
    (hs : statusOk res.status) :
    fb.list t offset limit tid =
      (Except.ok res, [Event.request (fb.getReq (fb.listUrl offset limit))], fb) := by
  dsimp only [Feedback.list]
  rw [ht]
  dsimp only
  rw [if_pos hs]

/-- Every error `list` propagates went through the shared except block, and
the trace is the request followed by that block's log lines. -/
theorem list_error_cases (fb : Feedback) (t : Transport) (offset limit : Int)
    (tid : Option String) (e : PyErr)
    (h : (fb.list t offset limit tid).1 = Except.error e) :
    ∃ e0, e = (exceptBlockLog e0).2 ∧
      (fb.list t offset limit tid).2.1 =
        Event.request (fb.getReq (fb.listUrl offset limit)) :: (exceptBlockLog e0).1 := by
  rcases ht : t (fb.getReq (fb.listUrl offset limit)) with msg | res
  · refine ⟨PyErr.transportError msg, ?_, ?_⟩
    · have h1 : (fb.list t offset limit tid).1 =
          Except.error (exceptBlockLog (PyErr.transportError msg)).2 := by
        dsimp only [Feedback.list]
        rw [ht]
      rw [h1] at h
      injection h with h2
      exact h2.symm
    · dsimp only [Feedback.list]
      rw [ht]
  · by_cases hs : statusOk res.status
    · exfalso
      have h1 : (fb.list t offset limit tid).1 = Except.ok res := by
        dsimp only [Feedback.list]
        rw [ht]
        dsimp only
        rw [if_pos hs]
      rw [h1] at h
      exact Except.noConfusion h
    · refine ⟨PyErr.httpStatusError res, ?_, ?_⟩
      · have h1 : (fb.list t offset limit tid).1 =
            Except.error (exceptBlockLog (PyErr.httpStatusError res)).2 := by
          dsimp only [Feedback.list]
          rw [ht]
          dsimp only
          rw [if_neg hs]
        rw [h1] at h
        injection h with h2
        exact h2.symm
      · dsimp only [Feedback.list]
        rw [ht]
        dsimp only
        rw [if_neg hs]

/-! Lemmas about the two except blocks. -/

/-- A transport failure carries no response: the block logs it and re-raises
it unchanged. -/
theorem exceptBlockLog_transport (msg : String) :
    exceptBlockLog (PyErr.transportError msg) =
      ([Event.logError (LogMsg.exc (PyErr.transportError msg))],
       PyErr.transportError msg) := rfl

/-- A status error whose body is a JSON object without an `error` key: the
block logs the exception and re-raises it unchanged. -/
theorem exceptBlockLog_obj_lookup_none (resp : HttpResponse) (kvs : List (String × Json))
    (hb : resp.body = some (Json.obj kvs)) (hk : kvs.lookup "error" = none) :
    exceptBlockLog (PyErr.httpStatusError resp) =
      ([Event.logError (LogMsg.exc (PyErr.httpStatusError resp))],
       PyErr.httpStatusError resp) := by
  rcases resp with ⟨st, body⟩
  cases hb
  dsimp only [exceptBlockLog, PyErr.response, HttpResponse.json, pyIn]
  rw [hk]
  rfl

/-- A status error whose body is a JSON object with an `error` key: the block
logs the exception, then the key's value, and re-raises the original. -/
theorem exceptBlockLog_obj_lookup_some (resp : HttpResponse) (kvs : List (String × Json))
    (v : Json) (hb : resp.body = some (Json.obj kvs)) (hk : kvs.lookup "error" = some v) :
    exceptBlockLog (PyErr.httpStatusError resp) =
      ([Event.logError (LogMsg.exc (PyErr.httpStatusError resp)),
        Event.logError (LogMsg.val v)],
       PyErr.httpStatusError resp) := by
  rcases resp with ⟨st, body⟩
  cases hb
  dsimp only [exceptBlockLog, PyErr.response, HttpResponse.json, pyIn, pyIndex]
  rw [hk]
  rfl

/-- The CLI echo block prints the error line first, optionally followed by
the server-supplied error value; nothing else. -/
theorem exceptBlockEcho_shape (e : PyErr) :
    (exceptBlockEcho e).1 = [Event.echo ("Error fetching feedback " ++ pyErrMsg e)] ∨
    ∃ v, (exceptBlockEcho e).1 =
      [Event.echo ("Error fetching feedback " ++ pyErrMsg e), Event.echoJson v] := by
  dsimp only [exceptBlockEcho]
  repeat' split
  all_goals first
    | exact Or.inl rfl
    | exact Or.inr ⟨_, rfl⟩

/-- Whatever exception the shared logging block of `list` re-raises, the CLI
echo block handles it without raising: every probing step that could raise
already raised inside `list` and was replaced by a response-free exception. -/
theorem exceptBlockEcho_of_log (e0 : PyErr) :
    (exceptBlockEcho (exceptBlockLog e0).2).2 = none := by
  rcases e0 with m | resp | _ | _ | k
  case transportError => rfl
  case jsonDecodeError => rfl
  case typeError => rfl
  case keyError => rfl
  case httpStatusError =>
    rcases resp with ⟨st, _ | j⟩
    · rfl
    · rcases j with _ | b | n | s | xs | kvs
      · rfl
      · rfl
      · rfl
      · cases hsub : strHasSub "error".data s.data
        · have hlog : (exceptBlockLog (PyErr.httpStatusError ⟨st, some (Json.str s)⟩)).2 =
              PyErr.httpStatusError ⟨st, some (Json.str s)⟩ := by
            dsimp only [exceptBlockLog, PyErr.response, HttpResponse.json, pyIn]
            rw [hsub]
          rw [hlog]
          dsimp only [exceptBlockEcho, PyErr.response, HttpResponse.json, pyIn]
          rw [hsub]
        · have hlog : (exceptBlockLog (PyErr.httpStatusError ⟨st, some (Json.str s)⟩)).2 =
              PyErr.typeError := by
            dsimp only [exceptBlockLog, PyErr.response, HttpResponse.json, pyIn, pyIndex]
            rw [hsub]
          rw [hlog]
          rfl
      · cases hany : xs.any fun x => Json.beq x (Json.str "error")
        · have hlog : (exceptBlockLog (PyErr.httpStatusError ⟨st, some (Json.arr xs)⟩)).2 =
              PyErr.httpStatusError ⟨st, some (Json.arr xs)⟩ := by
            dsimp only [exceptBlockLog, PyErr.response, HttpResponse.json, pyIn]
            rw [hany]
          rw [hlog]
          dsimp only [exceptBlockEcho, PyErr.response, HttpResponse.json, pyIn]
          rw [hany]
        · have hlog : (exceptBlockLog (PyErr.httpStatusError ⟨st, some (Json.arr xs)⟩)).2 =
              PyErr.typeError := by
            dsimp only [exceptBlockLog, PyErr.response, HttpResponse.json, pyIn, pyIndex]
            rw [hany]
          rw [hlog]
          rfl
      · rcases hk : kvs.lookup "error" with _ | v
        · have hlog : (exceptBlockLog (PyErr.httpStatusError ⟨st, some (Json.obj kvs)⟩)).2 =
              PyErr.httpStatusError ⟨st, some (Json.obj kvs)⟩ := by
            dsimp only [exceptBlockLog, PyErr.response, HttpResponse.json, pyIn]
            rw [hk]
            rfl
          rw [hlog]
          dsimp only [exceptBlockEcho, PyErr.response, HttpResponse.json, pyIn]
          rw [hk]
          rfl
        · have hlog : (exceptBlockLog (PyErr.httpStatusError ⟨st, some (Json.obj kvs)⟩)).2 =
              PyErr.httpStatusError ⟨st, some (Json.obj kvs)⟩ := by
            dsimp only [exceptBlockLog, PyErr.response, HttpResponse.json, pyIn, pyIndex]
            rw [hk]
            rfl
          rw [hlog]
          dsimp only [exceptBlockEcho, PyErr.response, HttpResponse.json, pyIn, pyIndex]
          rw [hk]
          rfl

/-! Lemmas about the client-side filtering and table building of
`list_feedback`. -/

/-- A list of JSON strings maps back to its strings. -/
theorem mapM_asStr_map (l : List String) :
    (l.map Json.str).mapM asStr = some l := by
  induction l with
  | nil => rfl
  | cons a rest ih =>
    rw [List.map_cons, List.mapM_cons]
    show ((rest.map Json.str).mapM asStr >>= fun bs => pure (a :: bs) : Option _) = _
    rw [ih]
    rfl

/-- The table row built from a well-formed record. -/
theorem rowOf_toJson (r : FeedbackRecord) :
    rowOf r.toJson = Except.ok r.toRow := by
  have h1 : pyJoinComma (Json.arr (r.matched_completion_ids.map Json.str)) =
      Except.ok (String.intercalate "," r.matched_completion_ids) := by
    dsimp only [pyJoinComma]
    rw [mapM_asStr_map]
  have h2 : rowOf r.toJson =
      (pyJoinComma (Json.arr (r.matched_completion_ids.map Json.str)) >>= fun joined =>
        Except.ok { id := r.id, task_name := r.task_name,
                    feedback := json_dumps r.json_values,
                    matched_completion_ids := joined }) := rfl
  rw [h2, h1]
  rfl

/-- The rows of a page of well-formed records. -/
theorem rows_of_records (recs : List FeedbackRecord) :
    (recs.map FeedbackRecord.toJson).mapM rowOf =
      Except.ok (recs.map FeedbackRecord.toRow) := by
  induction recs with
  | nil => rfl
  | cons r rest ih =>
    rw [List.map_cons, List.mapM_cons, rowOf_toJson]
    show (rest.map FeedbackRecord.toJson).mapM rowOf >>= _ = _
    rw [ih]
    rfl

/-- The client-side comprehension keeps exactly the records whose `task_id`
equals the filter value. -/
theorem filter_records (tidf : String) (recs : List FeedbackRecord) :
    filterByTaskId tidf (recs.map FeedbackRecord.toJson) =
      Except.ok ((recs.filter fun r => r.task_id == tidf).map FeedbackRecord.toJson) := by
  induction recs with
  | nil => rfl
  | cons r rest ih =>
    have hidx : pyIndex r.toJson "task_id" = Except.ok (Json.str r.task_id) := rfl
    rw [List.map_cons]
    show (pyIndex r.toJson "task_id" >>= fun v =>
        filterByTaskId tidf (rest.map FeedbackRecord.toJson) >>= fun tail =>
        if Json.beq v (Json.str tidf) then pure (r.toJson :: tail) else pure tail) = _
    rw [hidx]
    show (filterByTaskId tidf (rest.map FeedbackRecord.toJson) >>= fun tail =>
        if Json.beq (Json.str r.task_id) (Json.str tidf)
        then pure (r.toJson :: tail) else pure tail) = _
    rw [ih]
    show (if Json.beq (Json.str r.task_id) (Json.str tidf)
        then pure (r.toJson :: (rest.filter fun x => x.task_id == tidf).map FeedbackRecord.toJson)
        else pure ((rest.filter fun x => x.task_id == tidf).map FeedbackRecord.toJson)
        : Except PyErr (List Json)) = _
    have hbeq : Json.beq (Json.str r.task_id) (Json.str tidf) = (r.task_id == tidf) := rfl
    rw [hbeq, List.filter_cons]
    cases h : r.task_id == tidf
    · rw [if_neg (by simp [h]), if_neg (by simp [h])]
      rfl
    · rw [if_pos (by simp [h]), if_pos (by simp [h]), List.map_cons]
      rfl

/-! Unfolding lemmas for the failing paths of the two operations. -/

/-- `_post_request` under a transport failure. -/
theorem post_request_transport_err (fb : Feedback) (t : Transport) (url : String)
    (payload : List (String × Json)) (msg : String)
    (ht : t (fb.postReq url
      (dictSet payload "organization_id" (Json.str fb.log10_config.org_id))) =
      Except.error msg) :
    fb.post_request t url payload =
      (Except.error (exceptBlockLog (PyErr.transportError msg)).2,
       Event.request (fb.postReq url
         (dictSet payload "organization_id" (Json.str fb.log10_config.org_id))) ::
         (exceptBlockLog (PyErr.transportError msg)).1,
       fb) := by
  dsimp only [Feedback.post_request]
  rw [ht]

/-- `_post_request` under a non-2xx response. -/
theorem post_request_status_err (fb : Feedback) (t : Transport) (url : String)
    (payload : List (String × Json)) (resp : HttpResponse)
    (ht : t (fb.postReq url
      (dictSet payload "organization_id" (Json.str fb.log10_config.org_id))) =
      Except.ok resp)
    (hs : ¬ statusOk resp.status) :
    fb.post_request t url payload =
      (Except.error (exceptBlockLog (PyErr.httpStatusError resp)).2,
       Event.request (fb.postReq url
         (dictSet payload "organization_id" (Json.str fb.log10_config.org_id))) ::
         (exceptBlockLog (PyErr.httpStatusError resp)).1,
       fb) := by
  dsimp only [Feedback.post_request]
  rw [ht]
  dsimp only
  rw [if_neg hs]

/-- `list` under a transport failure. -/
theorem list_transport_err (fb : Feedback) (t : Transport) (offset limit : Int)
    (tid : Option String) (msg : String)
    (ht : t (fb.getReq (fb.listUrl offset limit)) = Except.error msg) :
    fb.list t offset limit tid =
      (Except.error (exceptBlockLog (PyErr.transportError msg)).2,
       Event.request (fb.getReq (fb.listUrl offset limit)) ::
         (exceptBlockLog (PyErr.transportError msg)).1,
       fb) := by
  dsimp only [Feedback.list]
  rw [ht]

/-- `list` under a non-2xx response. -/
theorem list_status_err (fb : Feedback) (t : Transport) (offset limit : Int)
    (tid : Option String) (resp : HttpResponse)
    (ht : t (fb.getReq (fb.listUrl offset limit)) = Except.ok resp)
    (hs : ¬ statusOk resp.status) :
    fb.list t offset limit tid =
      (Except.error (exceptBlockLog (PyErr.httpStatusError resp)).2,
       Event.request (fb.getReq (fb.listUrl offset limit)) ::
         (exceptBlockLog (PyErr.httpStatusError resp)).1,
       fb) := by
  dsimp only [Feedback.list]
  rw [ht]
  dsimp only
  rw [if_neg hs]

/-- `_post_request` on a 2xx response returns it as is. -/
theorem post_request_ok (fb : Feedback) (t : Transport) (url : String)
    (payload : List (String × Json)) (resp : HttpResponse)
    (ht : t (fb.postReq url
      (dictSet payload "organization_id" (Json.str fb.log10_config.org_id))) =
      Except.ok resp)
    (hs : statusOk resp.status) :
    fb.post_request t url payload =
      (Except.ok resp,
       [Event.request (fb.postReq url
         (dictSet payload "organization_id" (Json.str fb.log10_config.org_id)))],
       fb) := by
  dsimp only [Feedback.post_request]
  rw [ht]
  dsimp only
  rw [if_pos hs]

/-! The claims. -/

/-- C1 counterexample: a 500 response whose body is not valid JSON. `create`
logs the `HTTPStatusError`, but evaluating `e.response.json()` inside the
except-block condition itself raises `JSONDecodeError`, and that exception —
not the original `HTTPStatusError` carrying the response — is what reaches
the caller. So the claim "propagates the original exception unmodified ...
for every shape of response body including non-JSON bodies" is false. -/
theorem C1_counterexample :
    ((Feedback.init none cfg0).create (tRaw 500) "t1" Json.null [] none).1 =
      Except.error PyErr.jsonDecodeError ∧
    ((Feedback.init none cfg0).create (tRaw 500) "t1" Json.null [] none).2.1 =
      [Event.request ((Feedback.init none cfg0).postReq Feedback.feedback_create_url
         (createPayload cfg0 "t1" Json.null [] none)),
       Event.logError (LogMsg.exc (PyErr.httpStatusError ⟨500, none⟩))] ∧
    PyErr.jsonDecodeError ≠ PyErr.httpStatusError ⟨500, none⟩ := by
  refine ⟨rfl, rfl, ?_⟩
  intro h
  exact PyErr.noConfusion h

/-- C1 (amended): when a request of `create` or `list` fails at the
transport level (no response attached) or with a non-2xx response whose body
is a JSON object, the client logs the exception, additionally logs the
body's `error` value when that key is present, and propagates the original
exception to the caller unmodified; for other body shapes the probing inside
the handler may itself raise, and that later exception propagates instead
(see the counterexample). -/
theorem C1_amended (cfg : Log10Config) (t : Transport) (task_id : String)
    (values : Json) (tags : List String) (comment : Option String)
    (offset limit : Int) (tid : Option String) :
    (∀ msg,
      t ((Feedback.init none cfg).postReq Feedback.feedback_create_url
          (createPayload cfg task_id values tags comment)) = Except.error msg →
      ((Feedback.init none cfg).create t task_id values tags comment).1 =
          Except.error (PyErr.transportError msg) ∧
        Event.logError (LogMsg.exc (PyErr.transportError msg)) ∈
          ((Feedback.init none cfg).create t task_id values tags comment).2.1) ∧
    (∀ resp kvs,
      t ((Feedback.init none cfg).postReq Feedback.feedback_create_url
          (createPayload cfg task_id values tags comment)) = Except.ok resp →
      ¬ statusOk resp.status → resp.body = some (Json.obj kvs) →
      ((Feedback.init none cfg).create t task_id values tags comment).1 =
          Except.error (PyErr.httpStatusError resp) ∧
        Event.logError (LogMsg.exc (PyErr.httpStatusError resp)) ∈
          ((Feedback.init none cfg).create t task_id values tags comment).2.1 ∧
        (∀ v, kvs.lookup "error" = some v →
          Event.logError (LogMsg.val v) ∈
            ((Feedback.init none cfg).create t task_id values tags comment).2.1)) ∧
    (∀ msg,
      t ((Feedback.init none cfg).getReq
          ((Feedback.init none cfg).listUrl offset limit)) = Except.error msg →
      ((Feedback.init none cfg).list t offset limit tid).1 =
          Except.error (PyErr.transportError msg) ∧
        Event.logError (LogMsg.exc (PyErr.transportError msg)) ∈
          ((Feedback.init none cfg).list t offset limit tid).2.1) ∧
    (∀ resp kvs,
      t ((Feedback.init none cfg).getReq
          ((Feedback.init none cfg).listUrl offset limit)) = Except.ok resp →
      ¬ statusOk resp.status → resp.body = some (Json.obj kvs) →
      ((Feedback.init none cfg).list t offset limit tid).1 =
          Except.error (PyErr.httpStatusError resp) ∧
        Event.logError (LogMsg.exc (PyErr.httpStatusError resp)) ∈
          ((Feedback.init none cfg).list t offset limit tid).2.1 ∧
        (∀ v, kvs.lookup "error" = some v →
          Event.logError (LogMsg.val v) ∈
            ((Feedback.init none cfg).list t offset limit tid).2.1)) := by
  refine ⟨?_, ?_, ?_, ?_⟩
  · intro msg hmsg
    rw [← dictSet_create cfg task_id values tags comment] at hmsg
    rw [create_unfold,
      post_request_transport_err _ t _ _ msg hmsg, exceptBlockLog_transport]
    exact ⟨rfl, by simp⟩
  · intro resp kvs hok hs hb
    rw [← dictSet_create cfg task_id values tags comment] at hok
    rw [create_unfold, post_request_status_err _ t _ _ resp hok hs]
    rcases hk : kvs.lookup "error" with _ | v
    · rw [exceptBlockLog_obj_lookup_none resp kvs hb hk]
      refine ⟨rfl, by simp, ?_⟩
      intro v hv
      exact Option.noConfusion hv
    · rw [exceptBlockLog_obj_lookup_some resp kvs v hb hk]
      refine ⟨rfl, by simp, ?_⟩
      intro w hw
      injection hw with hw2
      subst hw2
      simp
  · intro msg hmsg
    rw [list_transport_err _ t offset limit tid msg hmsg, exceptBlockLog_transport]
    exact ⟨rfl, by simp⟩
  · intro resp kvs hok hs hb
    rw [list_status_err _ t offset limit tid resp hok hs]
    rcases hk : kvs.lookup "error" with _ | v
    · rw [exceptBlockLog_obj_lookup_none resp kvs hb hk]
      refine ⟨rfl, by simp, ?_⟩
      intro v hv
      exact Option.noConfusion hv
    · rw [exceptBlockLog_obj_lookup_some resp kvs v hb hk]
      refine ⟨rfl, by simp, ?_⟩
      intro w hw
      injection hw with hw2
      subst hw2
      simp

/-- C1 witness: a concrete transport failure of `create` propagates as is,
and a concrete 404 with body `{"error": "quota exceeded"}` makes `list`
log that value and propagate the original status error. -/
theorem C1_amended_witness :
    ((Feedback.init none cfg0).create (tDown "boom") "t1" Json.null [] none).1 =
      Except.error (PyErr.transportError "boom") ∧
    ((Feedback.init none cfg0).list
        (tJson 404 (Json.obj [("error", Json.str "quota exceeded")])) 0 25 none).1 =
      Except.error (PyErr.httpStatusError
        ⟨404, some (Json.obj [("error", Json.str "quota exceeded")])⟩) ∧
    Event.logError (LogMsg.val (Json.str "quota exceeded")) ∈
      ((Feedback.init none cfg0).list
        (tJson 404 (Json.obj [("error", Json.str "quota exceeded")])) 0 25 none).2.1 := by
  refine ⟨?_, ?_, ?_⟩
  · exact ((C1_amended cfg0 (tDown "boom") "t1" Json.null [] none 0 25 none).1
      "boom" rfl).1
  · exact ((C1_amended cfg0
      (tJson 404 (Json.obj [("error", Json.str "quota exceeded")]))
      "t1" Json.null [] none 0 25 none).2.2.2
      ⟨404, some (Json.obj [("error", Json.str "quota exceeded")])⟩
      [("error", Json.str "quota exceeded")] rfl (by decide) rfl).1
  · exact ((C1_amended cfg0
      (tJson 404 (Json.obj [("error", Json.str "quota exceeded")]))
      "t1" Json.null [] none 0 25 none).2.2.2
      ⟨404, some (Json.obj [("error", Json.str "quota exceeded")])⟩
      [("error", Json.str "quota exceeded")] rfl (by decide) rfl).2.2
      (Json.str "quota exceeded") rfl

/-- C2: for every `offset ≥ 0`, `limit > 0` and every `task_id` value
(including `None`), `list` issues exactly one GET whose query string carries
`organization_id`, `offset` and `limit` with their values, and the call —
hence the outgoing request — is identical whatever `task_id` is passed: the
argument never reaches the query string. -/
theorem C2_list_query (cfg : Log10Config) (t : Transport) (offset limit : Int)
    (tid : Option String) (hoff : 0 ≤ offset) (hlim : 0 < limit) :
    requestsOf ((Feedback.init none cfg).list t offset limit tid).2.1 =
      [(Feedback.init none cfg).getReq ((Feedback.init none cfg).listUrl offset limit)] ∧
    ((Feedback.init none cfg).getReq
      ((Feedback.init none cfg).listUrl offset limit)).method = Method.get ∧
    strContains ((Feedback.init none cfg).listUrl offset limit)
      ("?organization_id=" ++ cfg.org_id) ∧
    strContains ((Feedback.init none cfg).listUrl offset limit)
      ("&offset=" ++ toString offset) ∧
    strContains ((Feedback.init none cfg).listUrl offset limit)
      ("&limit=" ++ toString limit) ∧
    (Feedback.init none cfg).list t offset limit tid =
      (Feedback.init none cfg).list t offset limit none := by
  refine ⟨list_requests _ t offset limit tid, rfl, ?_, ?_, ?_, rfl⟩
  · refine ⟨(cfg.url ++ "/api/v1/feedback").data,
      ("&offset=" ++ toString offset ++ "&limit=" ++ toString limit).data, ?_⟩
    simp [Feedback.listUrl, Feedback.init, String.data_append, List.append_assoc]
  · refine ⟨(cfg.url ++ "/api/v1/feedback" ++ "?organization_id=" ++ cfg.org_id).data,
      ("&limit=" ++ toString limit).data, ?_⟩
    simp [Feedback.listUrl, Feedback.init, String.data_append, List.append_assoc]
  · refine ⟨(cfg.url ++ "/api/v1/feedback" ++ "?organization_id=" ++ cfg.org_id
        ++ "&offset=" ++ toString offset).data, [], ?_⟩
    simp [Feedback.listUrl, Feedback.init, String.data_append, List.append_assoc]

/-- C2 witness: the concrete instantiation at `offset = 3`, `limit = 5`,
`task_id = some "t1"` against an unreachable server. -/
theorem C2_list_query_witness :
    requestsOf ((Feedback.init none cfg0).list (tDown "down") 3 5 (some "t1")).2.1 =
      [(Feedback.init none cfg0).getReq ((Feedback.init none cfg0).listUrl 3 5)] :=
  (C2_list_query cfg0 (tDown "down") 3 5 (some "t1") (by decide) (by decide)).1

/-- C4: for every `task_id`, `values`, `completion_tags_selector` and
`comment` (supplied or not), `create` sends exactly one POST to
`<base_url>/api/v1/feedback` whose JSON body has exactly the keys `task_id`,
`json_values`, `completion_tags_selector`, `comment` and the injected
`organization_id`; the `comment` key is present (as JSON `null`) even when
no comment was supplied. -/
theorem C4_create_body (cfg : Log10Config) (t : Transport) (task_id : String)
    (values : Json) (tags : List String) (comment : Option String) :
    requestsOf ((Feedback.init none cfg).create t task_id values tags comment).2.1 =
      [(Feedback.init none cfg).postReq Feedback.feedback_create_url
        (createPayload cfg task_id values tags comment)] ∧
    ((Feedback.init none cfg).postReq Feedback.feedback_create_url
      (createPayload cfg task_id values tags comment)).method = Method.post ∧
    ((Feedback.init none cfg).postReq Feedback.feedback_create_url
      (createPayload cfg task_id values tags comment)).url =
        cfg.url ++ "/api/v1/feedback" ∧
    ((Feedback.init none cfg).postReq Feedback.feedback_create_url
      (createPayload cfg task_id values tags comment)).body =
        some (Json.obj (createPayload cfg task_id values tags comment)) ∧
    (createPayload cfg task_id values tags comment).map Prod.fst =
      ["task_id", "json_values", "completion_tags_selector", "comment",
       "organization_id"] ∧
    (createPayload cfg task_id values tags comment).lookup "comment" =
      some (comment.elim Json.null Json.str) ∧
    (comment = none →
      (createPayload cfg task_id values tags comment).lookup "comment" =
        some Json.null) := by
  refine ⟨create_requests cfg t task_id values tags comment, rfl, rfl, rfl, rfl, rfl, ?_⟩
  intro h
  subst h
  rfl

/-- C4 witness: with no comment supplied, the body still carries the
`comment` key, as JSON `null`. -/
theorem C4_create_body_witness :
    (createPayload cfg0 "t1" (Json.obj [("score", Json.num 5)]) ["a", "b"]
      none).lookup "comment" = some Json.null :=
  (C4_create_body cfg0 (tDown "down") "t1" (Json.obj [("score", Json.num 5)])
    ["a", "b"] none).2.2.2.2.2.2 rfl

/-- C8: `list` mutates no client state: the client after a call is the
client before it, so a second call with identical arguments against the same
transport is the very same computation and yields the identical result. -/
theorem C8_idempotent (cfg : Log10Config) (t : Transport) (offset limit : Int)
    (tid : Option String) :
    ((Feedback.init none cfg).list t offset limit tid).2.2 = Feedback.init none cfg ∧
    Feedback.list ((Feedback.init none cfg).list t offset limit tid).2.2
        t offset limit tid =
      (Feedback.init none cfg).list t offset limit tid := by
  have hs := list_state (Feedback.init none cfg) t offset limit tid
  exact ⟨hs, by rw [hs]⟩

/-- C9: the three headers are fixed at construction, the configuration and
headers are unchanged by `create` and `list`, and every request either
operation issues carries exactly the instance's headers. -/
theorem C9_fixed_headers (cfg : Log10Config) (t : Transport) (task_id : String)
    (values : Json) (tags : List String) (comment : Option String)
    (offset limit : Int) (tid : Option String) :
    (Feedback.init none cfg).http_client_headers =
      [("x-log10-token", cfg.token), ("x-log10-organization-id", cfg.org_id),
       ("Content-Type", "application/json")] ∧
    (Feedback.init none cfg).log10_config = cfg ∧
    ((Feedback.init none cfg).create t task_id values tags comment).2.2 =
      Feedback.init none cfg ∧
    ((Feedback.init none cfg).list t offset limit tid).2.2 = Feedback.init none cfg ∧
    (∀ r ∈ requestsOf ((Feedback.init none cfg).create t task_id values tags comment).2.1,
      r.headers = (Feedback.init none cfg).http_client_headers) ∧
    (∀ r ∈ requestsOf ((Feedback.init none cfg).list t offset limit tid).2.1,
      r.headers = (Feedback.init none cfg).http_client_headers) := by
  refine ⟨rfl, rfl, create_state _ t task_id values tags comment,
    list_state _ t offset limit tid, ?_, ?_⟩
  · intro r hr
    rw [create_requests] at hr
    rcases List.mem_singleton.mp hr with rfl
    rfl
  · intro r hr
    rw [list_requests] at hr
    rcases List.mem_singleton.mp hr with rfl
    rfl

/-- C9 witness: the one request of a concrete `create` call carries the
instance's headers. -/
theorem C9_fixed_headers_witness :
    ((Feedback.init none cfg0).postReq Feedback.feedback_create_url
      (createPayload cfg0 "t1" Json.null ["a"] none)).headers =
      (Feedback.init none cfg0).http_client_headers :=
  (C9_fixed_headers cfg0 (tDown "x") "t1" Json.null ["a"] none 0 25 none).2.2.2.2.1
    _ (by rw [create_requests]; exact List.mem_singleton.mpr rfl)

/-- C3 counterexample: two successful `create` calls receiving the same
decoded JSON body but different status codes return different values — so
the value returned to the caller is the response object, not the decoded
JSON body (the CLI indeed calls `.json()` on it afterwards). -/
theorem C3_counterexample :
    ((Feedback.init none cfg0).create (tJson 200 (Json.obj [("id", Json.str "f1")]))
      "t1" Json.null [] none).1 =
      Except.ok ⟨200, some (Json.obj [("id", Json.str "f1")])⟩ ∧
    ((Feedback.init none cfg0).create (tJson 201 (Json.obj [("id", Json.str "f1")]))
      "t1" Json.null [] none).1 =
      Except.ok ⟨201, some (Json.obj [("id", Json.str "f1")])⟩ ∧
    (⟨200, some (Json.obj [("id", Json.str "f1")])⟩ : HttpResponse).body =
      (⟨201, some (Json.obj [("id", Json.str "f1")])⟩ : HttpResponse).body ∧
    (⟨200, some (Json.obj [("id", Json.str "f1")])⟩ : HttpResponse) ≠
      ⟨201, some (Json.obj [("id", Json.str "f1")])⟩ := by
  refine ⟨rfl, rfl, rfl, ?_⟩
  intro h
  injection h with h1 h2
  exact absurd h1 (by decide)

/-- C3 (amended): on a 2xx response, `create` and `list` return the received
HTTP response object unchanged; the decoded JSON body (for `list`, the
envelope) is what its `.json()` yields. -/
theorem C3_amended (cfg : Log10Config) (t : Transport) (task_id : String)
    (values : Json) (tags : List String) (comment : Option String)
    (offset limit : Int) (tid : Option String) (resp : HttpResponse) (j : Json) :
    (t ((Feedback.init none cfg).postReq Feedback.feedback_create_url
        (createPayload cfg task_id values tags comment)) = Except.ok resp →
      statusOk resp.status →
      ((Feedback.init none cfg).create t task_id values tags comment).1 =
        Except.ok resp) ∧
    (t ((Feedback.init none cfg).getReq
        ((Feedback.init none cfg).listUrl offset limit)) = Except.ok resp →
      statusOk resp.status →
      ((Feedback.init none cfg).list t offset limit tid).1 = Except.ok resp) ∧
    (resp.body = some j → resp.json = Except.ok j) := by
  refine ⟨?_, ?_, ?_⟩
  · intro hok hs
    rw [← dictSet_create cfg task_id values tags comment] at hok
    rw [create_unfold, post_request_ok _ t _ _ resp hok hs]
  · intro hok hs
    rw [list_ok _ t offset limit tid resp hok hs]
  · intro hb
    dsimp only [HttpResponse.json]
    rw [hb]

/-- C3 witness: a concrete 200 response is returned as is. -/
theorem C3_amended_witness :
    ((Feedback.init none cfg0).create (tJson 200 (Json.obj [("id", Json.str "f1")]))
      "t1" Json.null [] none).1 =
      Except.ok ⟨200, some (Json.obj [("id", Json.str "f1")])⟩ :=
  ((C3_amended cfg0 (tJson 200 (Json.obj [("id", Json.str "f1")])) "t1" Json.null []
    none 0 25 none ⟨200, some (Json.obj [("id", Json.str "f1")])⟩ Json.null).1
    rfl (by decide))

/-- C6: in the `create_feedback` command, when the supplied `values` string
is not valid JSON the parse error surfaces before any network call — the
trace holds no request — and any exception of the underlying `create`
propagates out of the command unchanged. -/
theorem C6_cli_create_errors (t : Transport) (cfg : Log10Config)
    (loads : String → Option Json) (task_id values selector comment : String) :
    (loads values = none →
      create_feedback t cfg loads task_id values selector comment =
        (Except.error PyErr.jsonDecodeError, [Event.echo "Creating feedback"]) ∧
      requestsOf (create_feedback t cfg loads task_id values selector comment).2 =
        []) ∧
    (∀ v e, loads values = some v →
      ((Feedback.init none cfg).create t task_id v (selector.splitOn ",")
        (some comment)).1 = Except.error e →
      (create_feedback t cfg loads task_id values selector comment).1 =
        Except.error e) := by
  refine ⟨?_, ?_⟩
  · intro h
    constructor
    · dsimp only [create_feedback]
      rw [h]
    · dsimp only [create_feedback]
      rw [h]
      rfl
  · intro v e hv he
    dsimp only [create_feedback]
    rw [hv]
    dsimp only
    rcases hc : (Feedback.init none cfg).create t task_id v (selector.splitOn ",")
      (some comment) with ⟨r, evs, fbx⟩
    rw [hc] at he
    dsimp only at he
    subst he
    rfl

/-- C6 witness: a concrete bad `values` string yields the parse error with
no request issued, and a concrete transport failure propagates out of the
command. -/
theorem C6_cli_create_errors_witness :
    create_feedback (tDown "down") cfg0 (fun _ => none) "t1" "xxx" "a,b" "" =
      (Except.error PyErr.jsonDecodeError, [Event.echo "Creating feedback"]) ∧
    (create_feedback (tDown "down") cfg0 (fun _ => some Json.null) "t1" "null"
      "a,b" "").1 = Except.error (PyErr.transportError "down") := by
  constructor
  · exact ((C6_cli_create_errors (tDown "down") cfg0 (fun _ => none)
      "t1" "xxx" "a,b" "").1 rfl).1
  · exact (C6_cli_create_errors (tDown "down") cfg0 (fun _ => some Json.null)
      "t1" "null" "a,b" "").2 Json.null (PyErr.transportError "down") rfl rfl

/-- C7: for every exception raised while fetching in the `list_feedback`
command, the exception is caught, an error line is echoed to standard output
(`Event.echo`; `logger.error` is the stderr channel), and the command
returns normally without rendering a table or a total-count line. -/
theorem C7_cli_list_catches (t : Transport) (cfg : Log10Config)
    (offset limit : Int) (tid : Option String) (e : PyErr)
    (h : ((Feedback.init none cfg).list t offset limit none).1 = Except.error e) :
    (list_feedback t cfg offset limit tid).1 = none ∧
    (∃ s, Event.echo s ∈ (list_feedback t cfg offset limit tid).2) ∧
    (∀ rows, Event.printTable rows ∉ (list_feedback t cfg offset limit tid).2) ∧
    (∀ s, Event.printLine s ∉ (list_feedback t cfg offset limit tid).2) := by
  obtain ⟨e0, he0, hevs⟩ := list_error_cases _ t offset limit none e h
  rcases hc : (Feedback.init none cfg).list t offset limit none with ⟨r, evs, fbx⟩
  have hr : r = Except.error e := by
    rw [hc] at h
    exact h
  have hevs2 : evs = Event.request ((Feedback.init none cfg).getReq
      ((Feedback.init none cfg).listUrl offset limit)) :: (exceptBlockLog e0).1 := by
    rw [hc] at hevs
    exact hevs
  have hlf1 : (list_feedback t cfg offset limit tid).1 = (exceptBlockEcho e).2 := by
    dsimp only [list_feedback]
    rw [hc, hr]
  have hlf2 : (list_feedback t cfg offset limit tid).2 =
      evs ++ (exceptBlockEcho e).1 := by
    dsimp only [list_feedback]
    rw [hc, hr]
  refine ⟨?_, ?_, ?_, ?_⟩
  · rw [hlf1, he0]
    exact exceptBlockEcho_of_log e0
  · refine ⟨"Error fetching feedback " ++ pyErrMsg e, ?_⟩
    rw [hlf2]
    rcases exceptBlockEcho_shape e with h1 | ⟨v1, h1⟩ <;> rw [h1] <;> simp
  · intro rows
    rw [hlf2, hevs2]
    rcases exceptBlockEcho_shape e with h1 | ⟨v1, h1⟩ <;>
      rcases exceptBlockLog_shape e0 with h2 | ⟨v2, h2⟩ <;> rw [h1, h2] <;> simp
  · intro s
    rw [hlf2, hevs2]
    rcases exceptBlockEcho_shape e with h1 | ⟨v1, h1⟩ <;>
      rcases exceptBlockLog_shape e0 with h2 | ⟨v2, h2⟩ <;> rw [h1, h2] <;> simp

/-- C7 witness: a concrete 500 response with a non-JSON body (where the
fetch propagates a `JSONDecodeError`) is caught and the command returns
normally. -/
theorem C7_cli_list_catches_witness :
    (list_feedback (tRaw 500) cfg0 0 25 none).1 = none :=
  (C7_cli_list_catches (tRaw 500) cfg0 0 25 none PyErr.jsonDecodeError rfl).1

/-- With a parseable `values` string, the `create_feedback` command issues
exactly the one POST of the underlying `create`, whatever the outcome. -/
theorem create_feedback_requests (t : Transport) (cfg : Log10Config)
    (loads : String → Option Json) (task_id values selector comment : String)
    (v : Json) (hv : loads values = some v) :
    requestsOf (create_feedback t cfg loads task_id values selector comment).2 =
      [(Feedback.init none cfg).postReq Feedback.feedback_create_url
        (createPayload cfg task_id v (selector.splitOn ",") (some comment))] := by
  dsimp only [create_feedback]
  rw [hv]
  dsimp only
  have hreq := create_requests cfg t task_id v (selector.splitOn ",") (some comment)
  rcases hc : (Feedback.init none cfg).create t task_id v (selector.splitOn ",")
    (some comment) with ⟨r, evs, fbx⟩
  rw [hc] at hreq
  dsimp only at hreq
  rcases r with e | res
  · dsimp only
    rw [show ([Event.echo "Creating feedback"] ++ evs : List Event) =
      Event.echo "Creating feedback" :: evs from rfl]
    rw [requestsOf_cons_echo, hreq]
  · rcases res with ⟨st, _ | j⟩
    · dsimp only [HttpResponse.json]
      rw [show ([Event.echo "Creating feedback"] ++ evs : List Event) =
        Event.echo "Creating feedback" :: evs from rfl]
      rw [requestsOf_cons_echo, hreq]
    · dsimp only [HttpResponse.json]
      rw [requestsOf_append, requestsOf_append, hreq]
      rfl

/-- C10: the click `--comment` option of `create_feedback` defaults to the
empty string, so the POST body of a CLI invocation without `--comment`
carries `comment: ""`, while the programmatic `Feedback.create` default
(`comment=None`) serializes as JSON `null` — the two defaults differ. -/
theorem C10_comment_default (t : Transport) (cfg : Log10Config)
    (loads : String → Option Json) (task_id values selector : String) (v : Json)
    (hv : loads values = some v) :
    create_feedback_comment_default = "" ∧
    commentFieldOf (create_feedback_cli t cfg loads task_id values selector none).2 =
      some (Json.str "") ∧
    commentFieldOf ((Feedback.init none cfg).create t task_id v
      (selector.splitOn ",") none).2.1 = some Json.null ∧
    Json.str "" ≠ Json.null := by
  refine ⟨rfl, ?_, ?_, ?_⟩
  · have h2 : create_feedback_cli t cfg loads task_id values selector none =
        create_feedback t cfg loads task_id values selector "" := rfl
    rw [h2]
    dsimp only [commentFieldOf]
    rw [create_feedback_requests t cfg loads task_id values selector "" v hv]
    rfl
  · dsimp only [commentFieldOf]
    rw [create_requests cfg t task_id v (selector.splitOn ",") none]
    rfl
  · intro h
    exact Json.noConfusion h

/-- C10 witness: a concrete CLI invocation without `--comment` sends
`comment: ""`. -/
theorem C10_comment_default_witness :
    commentFieldOf (create_feedback_cli (tDown "d") cfg0 (fun _ => some (Json.num 1))
      "t1" "1" "a" none).2 = some (Json.str "") :=
  (C10_comment_default (tDown "d") cfg0 (fun _ => some (Json.num 1)) "t1" "1" "a"
    (Json.num 1) rfl).2.1

/-- C5: for a page of well-formed records with mixed `task_id` values, the
`list_feedback` command invoked with a non-empty `task_id` filter renders
exactly the rows whose `task_id` equals the filter (exact string match), and
the printed total-feedback count is the number of displayed rows, not the
size of the unfiltered page. -/
theorem C5_cli_filter (cfg : Log10Config) (t : Transport) (offset limit : Int)
    (recs : List FeedbackRecord) (tidf : String) (hne : tidf ≠ "")
    (ht : t ((Feedback.init none cfg).getReq
        ((Feedback.init none cfg).listUrl offset limit)) =
      Except.ok ⟨200, some (Json.obj
        [("data", Json.arr (recs.map FeedbackRecord.toJson))])⟩) :
    list_feedback t cfg offset limit (some tidf) =
      (none,
       [Event.request ((Feedback.init none cfg).getReq
          ((Feedback.init none cfg).listUrl offset limit)),
        Event.printTable
          ((recs.filter fun r => r.task_id == tidf).map FeedbackRecord.toRow),
        Event.printLine ("Total feedback: " ++
          toString (recs.filter fun r => r.task_id == tidf).length)]) := by
  have hl := list_ok (Feedback.init none cfg) t offset limit none
    ⟨200, some (Json.obj [("data", Json.arr (recs.map FeedbackRecord.toJson))])⟩
    ht (by dsimp only; decide)
  dsimp only [list_feedback]
  rw [hl]
  dsimp only
  have h1 : (HttpResponse.mk 200 (some (Json.obj
      [("data", Json.arr (recs.map FeedbackRecord.toJson))]))).json =
      Except.ok (Json.obj [("data", Json.arr (recs.map FeedbackRecord.toJson))]) := rfl
  rw [h1]
  dsimp only
  have h2 : pyIndex (Json.obj [("data", Json.arr (recs.map FeedbackRecord.toJson))])
      "data" = Except.ok (Json.arr (recs.map FeedbackRecord.toJson)) := rfl
  rw [h2]
  dsimp only
  have h3 : pyIterate (Json.arr (recs.map FeedbackRecord.toJson)) =
      Except.ok (recs.map FeedbackRecord.toJson) := rfl
  rw [h3]
  dsimp only
  have htr : pyTruthy (some tidf) = true := by
    dsimp only [pyTruthy]
    simp [hne]
  rw [htr]
  rw [if_pos rfl]
  have h4 : (some tidf).getD "" = tidf := rfl
  rw [h4, filter_records tidf recs]
  dsimp only
  rw [rows_of_records]
  dsimp only
  rw [List.length_map]
  rfl

/-- C5 witness: a page with task ids `"a"` and `"b"` filtered by `"a"`
renders one row and prints `Total feedback: 1`. -/
theorem C5_cli_filter_witness :
    list_feedback (tJson 200 envAB) cfg0 0 25 (some "a") =
      (none,
       [Event.request ((Feedback.init none cfg0).getReq
          ((Feedback.init none cfg0).listUrl 0 25)),
        Event.printTable [recA.toRow],
        Event.printLine "Total feedback: 1"]) := by
  have h := C5_cli_filter cfg0 (tJson 200 envAB) 0 25 [recA, recB] "a"
    (by decide) rfl
  exact h

end Log10
